import Mathlib

/-!
Verification of the pending-transaction tracker in
`packages/bridge-ui/src/store/transactions.ts`.

The tracker keeps an ordered list of in-flight transactions.  `add`
appends the submitted transaction, records its position, and issues a
single provider watch (`waitForTransaction(tx.hash, 1, 5 * 60 * 1000)`).
When the watch settles, a completion handler runs: on a mined receipt it
splices the recorded index out of the list and then resolves or rejects
the deferred according to `receipt.status === 1`; on a watch error it
rejects the deferred (timeout-classified or generic) without touching
the list.

The embedding below is a direct translation of that code.  The
synchronous part of `add` is the pure function `pendingTransactions.add`;
the asynchronous continuation (the `.then` / `.catch` callbacks) is the
pure function `handleWatchOutcome`, which receives the store contents as
they are at the moment the callback runs and returns the ordered trace of
effects it performs (store updates and deferred completions) together
with the new store contents.
-/

/-- A transaction handle as far as this module inspects it: only the
hash is read (`tx.hash`). -/
structure Transaction where
  hash : String
deriving DecidableEq, Repr

/-- The shape of `ethers.providers.TransactionReceipt` as far as this
module inspects it: the hash it was produced for and the numeric
`status` field (`1` denotes success). -/
structure TransactionReceipt where
  transactionHash : String
  status : Nat
deriving DecidableEq, Repr

/-- An error produced by the provider watch; the code only reads its
`code` field (`error?.code === ethers.errors.TIMEOUT`). -/
structure WatchError where
  code : String
deriving DecidableEq, Repr

/-- The constant `ethers.errors.TIMEOUT` (ethers v5 error
classification). -/
def ethersErrorsTimeout : String := "TIMEOUT"

/-- The arguments of one `provider.waitForTransaction` call. -/
structure WatchRequest where
  hash : String
  confirms : Nat
  timeoutMs : Nat
deriving DecidableEq, Repr

/-- The context object (`cause`) attached to a rejection `Error`. -/
inductive Cause where
  | receipt (r : TransactionReceipt)
  | error (e : WatchError)
deriving DecidableEq, Repr

/-- A completion of the deferred returned by `add`: resolution with a
receipt, or rejection with an `Error` carrying a message and a cause. -/
inductive Completion where
  | resolved (receipt : TransactionReceipt)
  | rejected (message : String) (cause : Cause)
deriving DecidableEq, Repr

/-- One observable effect of the completion handler, in the order the
code performs them. -/
inductive Event where
  | storeUpdate (newTxs : List Transaction)
  | complete (c : Completion)
deriving DecidableEq, Repr

/-- Holds on a deferred completion event. -/
def Event.isComplete : Event → Bool
  | Event.complete _ => true
  | Event.storeUpdate _ => false

/-- Holds on a store mutation event. -/
def Event.isStoreUpdate : Event → Bool
  | Event.storeUpdate _ => true
  | Event.complete _ => false

/-- Number of deferred completions (resolve or reject) in a trace. -/
def countCompletions (es : List Event) : Nat :=
  (es.filter Event.isComplete).length

/-- JavaScript `array.splice(i, 1)` on a copy: removes the single
element at index `i` when `i < array.length`, otherwise removes
nothing. -/
def spliceOne (xs : List Transaction) (i : Nat) : List Transaction :=
  xs.take i ++ xs.drop (i + 1)

/-- Result of the synchronous part of `pendingTransactions.add`: the
published store contents, the recorded index `idxAppendedTransaction`,
and the provider watches issued. -/
structure AddResult where
  state : List Transaction
  idx : Nat
  watchRequests : List WatchRequest
deriving DecidableEq, Repr

/-- Synchronous part of `pendingTransactions.add`, run on the store
contents `txs` current at call time: appends `tx`
(`newPendingTransactions = [...txs, tx]`), records
`idxAppendedTransaction = newPendingTransactions.length - 1`, and issues
the single watch `waitForTransaction(tx.hash, 1, 5 * 60 * 1000)`. -/
def pendingTransactions.add (txs : List Transaction) (tx : Transaction) :
    AddResult :=
  let newPendingTransactions := txs ++ [tx]
  let idxAppendedTransaction := newPendingTransactions.length - 1
  { state := newPendingTransactions
    idx := idxAppendedTransaction
    watchRequests := [⟨tx.hash, 1, 5 * 60 * 1000⟩] }

/-- How the provider watch settles: fulfilled with a mined receipt, or
rejected with an error. -/
inductive WatchOutcome where
  | mined (receipt : TransactionReceipt)
  | failed (error : WatchError)
deriving DecidableEq, Repr

/-- Result of running the completion handler: the ordered effect trace,
the store contents afterwards, and any further watches issued (none —
the code never retries). -/
structure HandlerResult where
  events : List Event
  state : List Transaction
  watchRequests : List WatchRequest
deriving DecidableEq, Repr

/-- The asynchronous continuation of `add` (the `.then`/`.catch`
callbacks), run with the recorded index `idx` on the store contents
`txs` current when the watch settles.

On a mined receipt: first replaces the store with a copy from which the
element at `idx` was spliced, then resolves the deferred with the
receipt when `receipt.status === 1`, else rejects it with
`Error('Transaction failed', { cause: receipt })`.

On a watch error: rejects with the timeout message when
`error.code === ethers.errors.TIMEOUT`, else with
`Error('transaction failed', { cause: error })`; the store is not
touched. -/
def handleWatchOutcome (idx : Nat) (outcome : WatchOutcome)
    (txs : List Transaction) : HandlerResult :=
  match outcome with
  | WatchOutcome.mined receipt =>
      let copyPendingTransactions := spliceOne txs idx
      let completion :=
        if receipt.status = 1 then
          Completion.resolved receipt
        else
          Completion.rejected "Transaction failed" (Cause.receipt receipt)
      { events := [Event.storeUpdate copyPendingTransactions,
                   Event.complete completion]
        state := copyPendingTransactions
        watchRequests := [] }
  | WatchOutcome.failed error =>
      let completion :=
        if error.code = ethersErrorsTimeout then
          Completion.rejected
            "timeout while waiting for transaction to be mined"
            (Cause.error error)
        else
          Completion.rejected "transaction failed" (Cause.error error)
      { events := [Event.complete completion]
        state := txs
        watchRequests := [] }

/-- Splicing out the index recorded for a freshly appended element
removes exactly that element. -/
theorem spliceOne_append_singleton (l : List Transaction)
    (a : Transaction) : spliceOne (l ++ [a]) l.length = l := by
  unfold spliceOne
  rw [List.take_left]
  have h : (l ++ [a]).length ≤ l.length + 1 := by
    simp
  rw [List.drop_eq_nil_of_le h, List.append_nil]

/-- Splicing at an index that is at or past the end of the list removes
nothing, exactly as JavaScript `splice` does. -/
theorem spliceOne_of_length_le (xs : List Transaction) (i : Nat)
    (h : xs.length ≤ i) : spliceOne xs i = xs := by
  unfold spliceOne
  rw [List.take_of_length_le h,
    List.drop_eq_nil_of_le (Nat.le_trans h (Nat.le_succ i)),
    List.append_nil]

/-- Every run of the completion handler performs exactly one deferred
completion, whatever the outcome. -/
theorem countCompletions_handleWatchOutcome (idx : Nat)
    (outcome : WatchOutcome) (txs : List Transaction) :
    countCompletions (handleWatchOutcome idx outcome txs).events = 1 := by
  cases outcome with
  | mined receipt =>
      simp only [handleWatchOutcome, countCompletions]
      split <;> simp [Event.isComplete]
  | failed error =>
      simp only [handleWatchOutcome, countCompletions]
      split <;> simp [Event.isComplete]

/-- C2: `add` appends the submitted transaction at the end of the
collection, growing its length by exactly one as part of the synchronous
store update performed inside the call, and records the position of the
new entry as the new last index. -/
theorem add_appends_and_records_last_index (txs : List Transaction)
    (tx : Transaction) :
    (pendingTransactions.add txs tx).state = txs ++ [tx] ∧
    (pendingTransactions.add txs tx).state.length = txs.length + 1 ∧
    (pendingTransactions.add txs tx).idx =
      (pendingTransactions.add txs tx).state.length - 1 := by
  refine ⟨rfl, ?_, rfl⟩
  simp [pendingTransactions.add]

/-- C5: for every single settlement of the provider watch — mined
receipt with success status, mined receipt with failure status, timeout
error, or any other error — the handler completes the deferred exactly
once. -/
theorem deferred_completed_exactly_once (idx : Nat)
    (outcome : WatchOutcome) (txs : List Transaction) :
    countCompletions (handleWatchOutcome idx outcome txs).events = 1 :=
  countCompletions_handleWatchOutcome idx outcome txs

/-- C6: when the provider watch rejects (timeout or any other error),
the handler leaves the pending collection untouched: the state is
returned unchanged and the effect trace contains no store update, so the
appended entry is never removed on these paths. -/
theorem watch_error_leaves_collection_unchanged (idx : Nat)
    (e : WatchError) (txs : List Transaction) :
    (handleWatchOutcome idx (WatchOutcome.failed e) txs).state = txs ∧
    ((handleWatchOutcome idx (WatchOutcome.failed e) txs).events.filter
      Event.isStoreUpdate) = [] := by
  constructor
  · rfl
  · simp only [handleWatchOutcome]
    split <;> simp [Event.isStoreUpdate]

/-- C9: every call to `add` issues exactly one watch request to the
provider, carrying the transaction hash, a required confirmation count
of 1 and a 5-minute (5 * 60 * 1000 ms) timeout; and the completion
handler never issues any further watch, so there are no retries. -/
theorem single_watch_request_no_retries (txs : List Transaction)
    (tx : Transaction) :
    (pendingTransactions.add txs tx).watchRequests =
      [⟨tx.hash, 1, 5 * 60 * 1000⟩] ∧
    ∀ (idx : Nat) (outcome : WatchOutcome) (s : List Transaction),
      (handleWatchOutcome idx outcome s).watchRequests = [] := by
  refine ⟨rfl, ?_⟩
  intro idx outcome s
  cases outcome <;> rfl

/-- Helper: running the mined-receipt handler on the state produced by
`add`, with the index recorded by `add`, removes exactly the appended
transaction and shrinks the collection back by one. -/
theorem handler_on_add_state_removes_appended (txs : List Transaction)
    (tx : Transaction) (receipt : TransactionReceipt) :
    (handleWatchOutcome (pendingTransactions.add txs tx).idx
      (WatchOutcome.mined receipt)
      (pendingTransactions.add txs tx).state).state = txs := by
  have hidx : (pendingTransactions.add txs tx).idx = txs.length := by
    simp [pendingTransactions.add]
  have hstate : (pendingTransactions.add txs tx).state = txs ++ [tx] := rfl
  simp only [handleWatchOutcome, hidx, hstate]
  exact spliceOne_append_singleton txs tx

/-- C1: when the watch for a submission resolves with a receipt whose
status is 1, the handler removes the entry appended at the recorded
position (the collection shrinks from `txs ++ [tx]` back to `txs`,
i.e. its length decreases by exactly one) and the deferred is resolved
with that receipt. -/
theorem success_receipt_removes_entry_and_resolves
    (txs : List Transaction) (tx : Transaction)
    (receipt : TransactionReceipt) (hs : receipt.status = 1) :
    (handleWatchOutcome (pendingTransactions.add txs tx).idx
      (WatchOutcome.mined receipt)
      (pendingTransactions.add txs tx).state).state = txs ∧
    (handleWatchOutcome (pendingTransactions.add txs tx).idx
      (WatchOutcome.mined receipt)
      (pendingTransactions.add txs tx).state).state.length + 1 =
      (pendingTransactions.add txs tx).state.length ∧
    (handleWatchOutcome (pendingTransactions.add txs tx).idx
      (WatchOutcome.mined receipt)
      (pendingTransactions.add txs tx).state).events =
      [Event.storeUpdate txs,
       Event.complete (Completion.resolved receipt)] := by
  have hrm := handler_on_add_state_removes_appended txs tx receipt
  refine ⟨hrm, ?_, ?_⟩
  · rw [hrm]
    simp [pendingTransactions.add]
  · have hidx : (pendingTransactions.add txs tx).idx = txs.length := by
      simp [pendingTransactions.add]
    have hstate : (pendingTransactions.add txs tx).state = txs ++ [tx] :=
      rfl
    simp only [handleWatchOutcome, hidx, hstate, hs, if_pos]
    rw [spliceOne_append_singleton txs tx]

/-- Witness for C1 at a concrete input. -/
theorem success_receipt_removes_entry_and_resolves_witness :
    (TransactionReceipt.mk "0xA" 1).status = 1 ∧
    ((handleWatchOutcome
        (pendingTransactions.add [Transaction.mk "0x01"]
          (Transaction.mk "0xA")).idx
        (WatchOutcome.mined (TransactionReceipt.mk "0xA" 1))
        (pendingTransactions.add [Transaction.mk "0x01"]
          (Transaction.mk "0xA")).state).state =
        [Transaction.mk "0x01"] ∧
      (handleWatchOutcome
        (pendingTransactions.add [Transaction.mk "0x01"]
          (Transaction.mk "0xA")).idx
        (WatchOutcome.mined (TransactionReceipt.mk "0xA" 1))
        (pendingTransactions.add [Transaction.mk "0x01"]
          (Transaction.mk "0xA")).state).state.length + 1 =
        (pendingTransactions.add [Transaction.mk "0x01"]
          (Transaction.mk "0xA")).state.length ∧
      (handleWatchOutcome
        (pendingTransactions.add [Transaction.mk "0x01"]
          (Transaction.mk "0xA")).idx
        (WatchOutcome.mined (TransactionReceipt.mk "0xA" 1))
        (pendingTransactions.add [Transaction.mk "0x01"]
          (Transaction.mk "0xA")).state).events =
        [Event.storeUpdate [Transaction.mk "0x01"],
         Event.complete
           (Completion.resolved (TransactionReceipt.mk "0xA" 1))]) :=
  ⟨rfl,
   success_receipt_removes_entry_and_resolves [Transaction.mk "0x01"]
     (Transaction.mk "0xA") (TransactionReceipt.mk "0xA" 1) rfl⟩

/-- C3: when the watch resolves with a receipt whose status is not 1,
the handler still removes the appended entry (the collection shrinks
from `txs ++ [tx]` back to `txs`, its length decreasing by exactly one)
and the deferred is rejected with the transaction-failed error whose
cause is that receipt. -/
theorem failure_receipt_removes_entry_and_rejects
    (txs : List Transaction) (tx : Transaction)
    (receipt : TransactionReceipt) (hs : receipt.status ≠ 1) :
    (handleWatchOutcome (pendingTransactions.add txs tx).idx
      (WatchOutcome.mined receipt)
      (pendingTransactions.add txs tx).state).state = txs ∧
    (handleWatchOutcome (pendingTransactions.add txs tx).idx
      (WatchOutcome.mined receipt)
      (pendingTransactions.add txs tx).state).state.length + 1 =
      (pendingTransactions.add txs tx).state.length ∧
    (handleWatchOutcome (pendingTransactions.add txs tx).idx
      (WatchOutcome.mined receipt)
      (pendingTransactions.add txs tx).state).events =
      [Event.storeUpdate txs,
       Event.complete
         (Completion.rejected "Transaction failed"
           (Cause.receipt receipt))] := by
  have hrm := handler_on_add_state_removes_appended txs tx receipt
  refine ⟨hrm, ?_, ?_⟩
  · rw [hrm]
    simp [pendingTransactions.add]
  · have hidx : (pendingTransactions.add txs tx).idx = txs.length := by
      simp [pendingTransactions.add]
    have hstate : (pendingTransactions.add txs tx).state = txs ++ [tx] :=
      rfl
    simp only [handleWatchOutcome, hidx, hstate, hs, if_neg]
    rw [spliceOne_append_singleton txs tx]
    simp

/-- Witness for C3 at a concrete input. -/
theorem failure_receipt_removes_entry_and_rejects_witness :
    (TransactionReceipt.mk "0xB" 0).status ≠ 1 ∧
    ((handleWatchOutcome
        (pendingTransactions.add [] (Transaction.mk "0xB")).idx
        (WatchOutcome.mined (TransactionReceipt.mk "0xB" 0))
        (pendingTransactions.add []
          (Transaction.mk "0xB")).state).state = [] ∧
      (handleWatchOutcome
        (pendingTransactions.add [] (Transaction.mk "0xB")).idx
        (WatchOutcome.mined (TransactionReceipt.mk "0xB" 0))
        (pendingTransactions.add []
          (Transaction.mk "0xB")).state).state.length + 1 =
        (pendingTransactions.add [] (Transaction.mk "0xB")).state.length ∧
      (handleWatchOutcome
        (pendingTransactions.add [] (Transaction.mk "0xB")).idx
        (WatchOutcome.mined (TransactionReceipt.mk "0xB" 0))
        (pendingTransactions.add []
          (Transaction.mk "0xB")).state).events =
        [Event.storeUpdate [],
         Event.complete
           (Completion.rejected "Transaction failed"
             (Cause.receipt (TransactionReceipt.mk "0xB" 0)))]) :=
  ⟨by decide,
   failure_receipt_removes_entry_and_rejects [] (Transaction.mk "0xB")
     (TransactionReceipt.mk "0xB" 0) (by decide)⟩

/-- C4: when the watch rejects, a timeout-classified error (its code
equals the TIMEOUT classification) rejects the deferred with the timeout
error carrying the original error as cause, while any other error
rejects it with the generic transaction-failed error carrying the
original error as cause. -/
theorem watch_rejection_classified (idx : Nat) (txs : List Transaction)
    (e : WatchError) :
    (e.code = ethersErrorsTimeout →
      (handleWatchOutcome idx (WatchOutcome.failed e) txs).events =
        [Event.complete
          (Completion.rejected
            "timeout while waiting for transaction to be mined"
            (Cause.error e))]) ∧
    (e.code ≠ ethersErrorsTimeout →
      (handleWatchOutcome idx (WatchOutcome.failed e) txs).events =
        [Event.complete
          (Completion.rejected "transaction failed"
            (Cause.error e))]) := by
  constructor
  · intro h
    simp [handleWatchOutcome, h]
  · intro h
    simp [handleWatchOutcome, h]

/-- Witness for C4 at concrete inputs for both branches. -/
theorem watch_rejection_classified_witness :
    (handleWatchOutcome 0 (WatchOutcome.failed (WatchError.mk "TIMEOUT"))
      []).events =
      [Event.complete
        (Completion.rejected
          "timeout while waiting for transaction to be mined"
          (Cause.error (WatchError.mk "TIMEOUT")))] ∧
    (handleWatchOutcome 0
      (WatchOutcome.failed (WatchError.mk "SERVER_ERROR")) []).events =
      [Event.complete
        (Completion.rejected "transaction failed"
          (Cause.error (WatchError.mk "SERVER_ERROR")))] :=
  ⟨(watch_rejection_classified 0 [] (WatchError.mk "TIMEOUT")).1 rfl,
   (watch_rejection_classified 0 [] (WatchError.mk "SERVER_ERROR")).2
     (by decide)⟩

/-- C7: removal is by the index recorded at insertion, not by hash.
Concrete interleaving: `add` on the empty collection records index 0 for
the submitted transaction (hash "0xA"); a replacement then publishes the
state `["0xB", "0xA"]` (the submitted transaction now sits at index 1);
when the handler runs, it splices index 0 and thereby deletes the "0xB"
entry — a different transaction — while the submitted one stays. -/
theorem index_based_removal_can_delete_wrong_entry :
    (pendingTransactions.add [] (Transaction.mk "0xA")).idx = 0 ∧
    (handleWatchOutcome 0
      (WatchOutcome.mined (TransactionReceipt.mk "0xA" 1))
      [Transaction.mk "0xB", Transaction.mk "0xA"]).state =
      [Transaction.mk "0xA"] ∧
    [Transaction.mk "0xB", Transaction.mk "0xA"].get? 0 =
      some (Transaction.mk "0xB") ∧
    Transaction.mk "0xB" ≠ Transaction.mk "0xA" := by
  decide

/-- C8: whenever the watch resolves with a receipt, the store update
that removes the submission's entry occurs strictly before the
completion of that submission's deferred in the handler's effect
trace. -/
theorem removal_precedes_completion (idx : Nat)
    (txs : List Transaction) (receipt : TransactionReceipt) :
    ∃ i j : Nat, i < j ∧
      (handleWatchOutcome idx (WatchOutcome.mined receipt)
        txs).events.get? i =
        some (Event.storeUpdate (spliceOne txs idx)) ∧
      ∃ c : Completion,
        (handleWatchOutcome idx (WatchOutcome.mined receipt)
          txs).events.get? j = some (Event.complete c) :=
  ⟨0, 1, Nat.zero_lt_one, rfl, ⟨_, rfl⟩⟩

/-- C10: if the recorded index is at or past the collection's current
length when the handler runs (the entry was already removed by some
other mutation), the splice removes nothing — the collection is
returned unchanged, so its length does not decrease — while the
deferred is still completed exactly once. -/
theorem stale_index_splice_is_noop (idx : Nat)
    (txs : List Transaction) (receipt : TransactionReceipt)
    (h : txs.length ≤ idx) :
    (handleWatchOutcome idx (WatchOutcome.mined receipt) txs).state =
      txs ∧
    countCompletions
      (handleWatchOutcome idx (WatchOutcome.mined receipt)
        txs).events = 1 := by
  refine ⟨?_, countCompletions_handleWatchOutcome idx _ txs⟩
  simp only [handleWatchOutcome]
  exact spliceOne_of_length_le txs idx h

/-- Witness for C10 at a concrete input. -/
theorem stale_index_splice_is_noop_witness :
    ([Transaction.mk "0xD"] : List Transaction).length ≤ 3 ∧
    ((handleWatchOutcome 3
        (WatchOutcome.mined (TransactionReceipt.mk "0xD" 1))
        [Transaction.mk "0xD"]).state = [Transaction.mk "0xD"] ∧
      countCompletions
        (handleWatchOutcome 3
          (WatchOutcome.mined (TransactionReceipt.mk "0xD" 1))
          [Transaction.mk "0xD"]).events = 1) :=
  ⟨by decide,
   stale_index_splice_is_noop 3 [Transaction.mk "0xD"]
     (TransactionReceipt.mk "0xD" 1) (by decide)⟩
